import Mathlib

/-!
Verification of the datacenters CSV tooling.

Shallow embedding of the three scripts in src/scripts:
* add_jobs_fields.py  — schema extender inserting five career columns
* csv_to_geojson.py   — CSV to GeoJSON converter with numeric coercion
* scrape_careers.py   — careers URL stub and bulk CSV career update

CSV rows (Python dicts produced by csv.DictReader) are modelled as ordered
association lists.  For the geo converter the values are Option String,
mirroring that DictReader fills short rows with None; for the other two
scripts the values are plain strings.  File writes are modelled by explicit
outcome types recording whether the destination was opened, written in
full, or left with a partial write after an exception.
-/

/-- Row of the geo converter: keys to possibly-absent string values
(None from csv.DictReader is Option.none). -/
abbrev Row := List (String × Option String)

/-- Row of the schema extender and the careers updater: keys to string
values. -/
abbrev StrRow := List (String × String)

/-- Python dict lookup (dict.get): first binding of the key, if any. -/
def lookupKV {α : Type} : List (String × α) → String → Option α
  | [], _ => none
  | p :: rest, k => if p.1 = k then some p.2 else lookupKV rest k

/-- Python dict.pop(key) without default: returns the value bound to the
key and the mapping without that binding, or none (KeyError) when the key
is absent. -/
def popKey {α : Type} : List (String × α) → String → Option (α × List (String × α))
  | [], _ => none
  | p :: rest, k =>
    if p.1 = k then some (p.2, rest)
    else
      match popKey rest k with
      | some (v, rest2) => some (v, p :: rest2)
      | none => none

/-- Python dict assignment row[k] = v: replaces the value of an existing
binding in place, otherwise appends the new binding at the end
(insertion order of dicts). -/
def setField (row : StrRow) (k v : String) : StrRow :=
  if row.any (fun p => p.1 == k) then
    row.map (fun p => if p.1 == k then (k, v) else p)
  else row ++ [(k, v)]

/-- Strip leading and trailing whitespace from a character list, modelling
str.strip() as performed by Python int() and float() on their argument. -/
def stripWS (cs : List Char) : List Char :=
  ((cs.dropWhile Char.isWhitespace).reverse.dropWhile Char.isWhitespace).reverse

/-- Decimal value of a digit list. -/
def digitsVal (cs : List Char) : Nat :=
  cs.foldl (fun a c => a * 10 + (c.toNat - 48)) 0

/-- All characters are ASCII decimal digits. -/
def allDigits (cs : List Char) : Bool :=
  cs.all Char.isDigit

/-- Python int(s) on a decimal string: optional surrounding whitespace,
optional sign, then at least one digit; none models a ValueError.
(Underscore digit separators of Python are not modelled.) -/
def pyInt? (s : String) : Option Int :=
  match stripWS s.data with
  | [] => none
  | c :: rest =>
    if c = '-' then
      if rest.isEmpty then none
      else if allDigits rest then some (-(digitsVal rest : Int)) else none
    else if c = '+' then
      if rest.isEmpty then none
      else if allDigits rest then some ((digitsVal rest : Int)) else none
    else if allDigits (c :: rest) then some ((digitsVal (c :: rest) : Int))
    else none

/-- Python float(s) on a decimal literal, yielding the exact rational it
denotes: optional whitespace and sign, an integer part and/or a fractional
part separated by at most one dot; none models a ValueError.  Exponent
notation, inf and nan are not modelled (the converter only reaches float()
on strings containing a dot). -/
def pyFloat? (s : String) : Option Rat :=
  let t := stripWS s.data
  let sd : Int × List Char :=
    match t with
    | c :: rest => if c = '-' then (-1, rest) else if c = '+' then (1, rest) else (1, t)
    | [] => (1, [])
  match sd.2.splitOn '.' with
  | [ip] =>
    if ip.isEmpty then none
    else if allDigits ip then some ((sd.1 : Rat) * (digitsVal ip : Rat))
    else none
  | [ip, fp] =>
    if ip.isEmpty && fp.isEmpty then none
    else if allDigits ip && allDigits fp then
      some ((sd.1 : Rat) * ((digitsVal ip : Rat) + (digitsVal fp : Rat) / (10 : Rat) ^ fp.length))
    else none
  | _ => none

/-- Values appearing in the generated GeoJSON: null, int, float (idealised
as the exact rational; every literal in the claims is exactly
representable), or a string carried through unchanged. -/
inductive Value where
  | null
  | int (n : Int)
  | float (q : Rat)
  | str (s : String)
deriving DecidableEq, Repr

/-- The value is a number (int or float). -/
def Value.isNumber : Value → Bool
  | .int _ => true
  | .float _ => true
  | _ => false

/-- convert_to_number from csv_to_geojson.py: empty or absent values map
to None; otherwise int() is tried when the string has no dot and float()
when it has one, and on a conversion error the original string is
returned unchanged. -/
def convert_to_number : Option String → Value
  | none => .null
  | some v =>
    if v = "" then .null
    else if v.data.contains '.' then
      match pyFloat? v with
      | some q => .float q
      | none => .str v
    else
      match pyInt? v with
      | some n => .int n
      | none => .str v

/-- numeric_fields list from csv_to_geojson.py. -/
def numeric_fields : List String :=
  ["capacity_mw", "year_opened", "size_sqft", "pue",
   "renewable_energy_pct", "water_usage_mgd", "carbon_intensity_gco2_kwh",
   "latency_zone_ms", "min_commitment_months", "nearest_university_miles"]

/-- Per-property conversion of the geo converter: allow-list fields go
through convert_to_number, all other fields pass through as strings with
the empty string (and the absent value) normalised to null. -/
def convertField (key : String) (value : Option String) : Value :=
  if numeric_fields.contains key then convert_to_number value
  else
    match value with
    | some s => if s = "" then .null else .str s
    | none => .null

/-- One GeoJSON feature: the literal type tag, the properties mapping, the
geometry type tag and the geometry coordinates (source field name is
type; ftype avoids the Lean field-name clash). -/
structure Feature where
  ftype : String
  properties : List (String × Value)
  geometryType : String
  coordinates : List Value
deriving DecidableEq, Repr

/-- Feature dict literal built at the end of the row loop: coordinates are
written [lon, lat] and the properties are the remaining fields converted
by convertField. -/
def mkFeature (lon lat : Value) (rest : Row) : Feature :=
  { ftype := "Feature"
    properties := rest.map (fun p => (p.1, convertField p.1 p.2))
    geometryType := "Point"
    coordinates := [lon, lat] }

/-- row.pop of latitude then of longitude: the two raw values and the
remaining row, or none when either key is absent (KeyError). -/
def popCoords (row : Row) : Option (Option String × Option String × Row) :=
  match popKey row "latitude" with
  | none => none
  | some (la, r1) =>
    match popKey r1 "longitude" with
    | none => none
    | some (lo, r2) => some (la, lo, r2)

/-- Name used in the skip diagnostic: row.get of name with fallback
Unknown; a present-but-None value prints as the string None. -/
def nameOf (row : Row) : String :=
  match lookupKV row "name" with
  | none => "Unknown"
  | some none => "None"
  | some (some s) => s

/-- Result of processing one row of the geo converter. -/
inductive RowStep where
  | keyError
  | skip (warning : String)
  | feat (f : Feature)
deriving DecidableEq, Repr

/-- Body of the row loop of csv_to_geojson: pop the coordinates (KeyError
when a column is absent), convert them, skip with a warning when either
converted value is None, otherwise build the feature. -/
def processRow (row : Row) : RowStep :=
  match popCoords row with
  | none => .keyError
  | some (latRaw, lonRaw, rest) =>
    let lat := convert_to_number latRaw
    let lon := convert_to_number lonRaw
    if lat = .null || lon = .null then
      .skip ("Warning: Skipping row with missing coordinates: " ++ nameOf rest)
    else
      .feat (mkFeature lon lat rest)

/-- csv_to_geojson over the row list: the features and the warnings in row
order, or none when a KeyError aborts the conversion before anything is
written. -/
def csv_to_geojson : List Row → Option (List Feature × List String)
  | [] => some ([], [])
  | r :: rs =>
    match processRow r with
    | RowStep.keyError => none
    | RowStep.skip w =>
      match csv_to_geojson rs with
      | none => none
      | some (fs, ws) => some (fs, w :: ws)
    | RowStep.feat f =>
      match csv_to_geojson rs with
      | none => none
      | some (fs, ws) => some (f :: fs, ws)

/-- Rows kept by the converter (analysis helper). -/
def keepRow (r : Row) : Bool :=
  match processRow r with
  | RowStep.feat _ => true
  | _ => false

/-- A row has both coordinate columns (analysis helper). -/
def rowHasCoords (r : Row) : Bool :=
  (popCoords r).isSome

/-- The raw coordinate value is Python-falsy for the skip test: absent
(None) or the empty string (analysis helper). -/
def missingVal : Option String → Bool
  | none => true
  | some s => s == ""

/-- Either raw coordinate of the row is missing or empty (analysis
helper). -/
def coordsMissing (r : Row) : Bool :=
  match popCoords r with
  | some (la, lo, _) => missingVal la || missingVal lo
  | none => true

/-- Feature built from a kept row (analysis helper). -/
def featOf (r : Row) : Feature :=
  match processRow r with
  | RowStep.feat f => f
  | _ => { ftype := "", properties := [], geometryType := "", coordinates := [] }

/-- Warning emitted for a skipped row (analysis helper). -/
def warnOf (r : Row) : String :=
  match processRow r with
  | RowStep.skip w => w
  | _ => ""

/-- Row remainder after popping the two coordinates (analysis helper). -/
def restAfterPop (r : Row) : Row :=
  match popCoords r with
  | some (_, _, r2) => r2
  | none => []

/-- new_fields list from add_jobs_fields.py. -/
def new_fields : List String :=
  ["careers_page_url", "jobs_last_checked", "open_positions_count",
   "job_categories", "hiring_status"]

/-- Python list.index(x): position of the first occurrence, none models
the ValueError raised when the element is absent. -/
def pyIndex : List String → String → Option Nat
  | [], _ => none
  | h :: t, x => if h = x then some 0 else (pyIndex t x).map (· + 1)

/-- The loop of add_jobs_fields that assigns the empty string to each of
the five new fields of a row. -/
def addEmpty (r : StrRow) : StrRow :=
  new_fields.foldl (fun acc f => setField acc f "") r

/-- csv.DictWriter.writerow: raises (none) when the row holds a key
outside the field names, otherwise emits the cells in field-name order
with absent keys filled by the empty restval. -/
def writeRow (fieldnames : List String) (row : StrRow) : Option (List String) :=
  if row.all (fun p => fieldnames.contains p.1) then
    some (fieldnames.map fun f => (lookupKV row f).getD "")
  else none

/-- Write the rows one by one; the Bool records whether a writerow raised
mid-file, in which case the rows written before the crash are kept. -/
def writeAll (fieldnames : List String) : List StrRow → List (List String) × Bool
  | [] => ([], false)
  | r :: rs =>
    match writeRow fieldnames r with
    | none => ([], true)
    | some cells =>
      match writeAll fieldnames rs with
      | (rest, crashed) => (cells :: rest, crashed)

/-- Effect of add_jobs_fields on the destination file: the ValueError of
header.index fires before the destination is opened for writing
(notOpened, file unmodified); a writerow exception leaves a partial file
(corrupted); otherwise the new header and all rows are written. -/
inductive AddJobsOutcome where
  | notOpened
  | corrupted (rowsSoFar : List (List String))
  | written (hdr : List String) (rows : List (List String))
deriving DecidableEq, Repr

/-- add_jobs_fields from add_jobs_fields.py on the in-memory CSV: find the
anchor notes (ValueError aborts before the write-open), build
header[0:i] + new_fields + [header[i]], set the five new fields of every
row to the empty string, and write with DictWriter over the new header. -/
def add_jobs_fields (header : List String) (rows : List StrRow) : AddJobsOutcome :=
  match pyIndex header "notes" with
  | none => .notOpened
  | some i =>
    let new_header := header.take i ++ new_fields ++ (header.drop i).take 1
    match writeAll new_header (rows.map addEmpty) with
    | (outs, false) => .written new_header outs
    | (outs, true) => .corrupted outs

/-- One CAREER_PAGES entry of scrape_careers.py (source keys url, api_url
and type; only url is ever read). -/
structure CareerPage where
  url : String
  api_url : Option String
  ctype : String
deriving DecidableEq, Repr

/-- CAREER_PAGES table from scrape_careers.py. -/
def CAREER_PAGES : List (String × CareerPage) :=
  [("Amazon Web Services",
    { url := "https://www.amazon.jobs/en/search?base_query=data+center&loc_query="
      api_url := some "https://www.amazon.jobs/en/search.json?base_query=data+center&loc_query="
      ctype := "json" }),
   ("Google",
    { url := "https://www.google.com/about/careers/applications/jobs/results/?q=data%20center"
      api_url := some "https://careers.google.com/api/v3/search/?q=data%20center"
      ctype := "json" }),
   ("Microsoft",
    { url := "https://careers.microsoft.com/us/en/search-results?keywords=data%20center"
      api_url := some "https://gcsservices.careers.microsoft.com/search/api/v1/search?q=data%20center"
      ctype := "json" }),
   ("Meta",
    { url := "https://www.metacareers.com/jobs?q=data%20center"
      api_url := none
      ctype := "greenhouse" }),
   ("Equinix",
    { url := "https://careers.equinix.com/jobs"
      api_url := none
      ctype := "workday" }),
   ("Digital Realty",
    { url := "https://www.digitalrealty.com/careers"
      api_url := none
      ctype := "workday" }),
   ("CoreSite",
    { url := "https://www.coresite.com/careers"
      api_url := none
      ctype := "workday" }),
   ("Switch",
    { url := "https://www.switch.com/careers/"
      api_url := none
      ctype := "custom" }),
   ("CyrusOne",
    { url := "https://www.cyrusone.com/careers/"
      api_url := none
      ctype := "custom" })]

/-- AGGREGATOR_PATTERNS table from scrape_careers.py, with the literal
brace placeholders of the source templates. -/
def AGGREGATOR_PATTERNS : List (String × String) :=
  [("linkedin", "https://www.linkedin.com/jobs/search/?keywords=\x7boperator\x7d%20\x7bcity\x7d&location=\x7bcity\x7d%2C%20\x7bstate\x7d"),
   ("indeed", "https://www.indeed.com/jobs?q=\x7boperator\x7d%20\x7bcity\x7d&l=\x7bcity\x7d%2C%20\x7bstate\x7d"),
   ("glassdoor", "https://www.glassdoor.com/Job/jobs.htm?sc.keyword=\x7boperator\x7d%20\x7bcity\x7d&locT=C&locId=\x7bcity\x7d")]

/-- UTF-8 bytes of a code point. -/
def utf8Bytes (n : Nat) : List Nat :=
  if n < 128 then [n]
  else if n < 2048 then [192 + n / 64, 128 + n % 64]
  else if n < 65536 then [224 + n / 4096, 128 + n / 64 % 64, 128 + n % 64]
  else [240 + n / 262144, 128 + n / 4096 % 64, 128 + n / 64 % 64, 128 + n % 64]

/-- Uppercase hexadecimal digit. -/
def hexDigit (n : Nat) : Char :=
  if n < 10 then Char.ofNat (48 + n) else Char.ofNat (55 + n)

/-- Percent-encoding of one byte. -/
def pctEncodeByte (b : Nat) : String :=
  String.mk ['%', hexDigit (b / 16), hexDigit (b % 16)]

/-- Characters urllib never quotes: ASCII letters, digits, underscore,
dot, hyphen, tilde. -/
def alwaysSafe (c : Char) : Bool :=
  c.isAlphanum || c == '_' || c == '.' || c == '-' || c == '~'

/-- urllib.parse.quote_plus with the default empty safe set: safe
characters kept, space becomes plus, every other character
percent-encodes its UTF-8 bytes in uppercase hex. -/
def quote_plus (s : String) : String :=
  String.join (s.data.map fun c =>
    if alwaysSafe c then String.mk [c]
    else if c == ' ' then "+"
    else String.join ((utf8Bytes c.toNat).map pctEncodeByte))

/-- The pattern occurs as a contiguous substring (Python in operator on
strings); prefix test helper. -/
def charsStartWith : List Char → List Char → Bool
  | [], _ => true
  | _ :: _, [] => false
  | p :: ps, c :: cs => p == c && charsStartWith ps cs

/-- Substring search over character lists. -/
def hasSubstr (pat : List Char) : List Char → Bool
  | [] => pat.isEmpty
  | c :: cs => charsStartWith pat (c :: cs) || hasSubstr pat cs

/-- Python substring containment pat in s. -/
def strContains (s pat : String) : Bool :=
  hasSubstr pat.data s.data

/-- Python truthiness of an optional string: present and non-empty. -/
def truthy : Option String → Bool
  | none => false
  | some s => !(s == "")

/-- get_career_page_url from scrape_careers.py: unknown operators yield
none; for a known operator the template url is returned, with the city
and state placeholders substituted (percent-encoded) only when the
argument is truthy and the placeholder occurs in the template. -/
def get_career_page_url (operator : String) (city state : Option String) : Option String :=
  match lookupKV CAREER_PAGES operator with
  | none => none
  | some page =>
    let base := page.url
    let base1 :=
      match city with
      | some c =>
        if truthy (some c) && strContains base "\x7bcity\x7d" then
          base.replace "\x7bcity\x7d" (quote_plus c)
        else base
      | none => base
    let base2 :=
      match state with
      | some s =>
        if truthy (some s) && strContains base1 "\x7bstate\x7d" then
          base1.replace "\x7bstate\x7d" (quote_plus s)
        else base1
      | none => base1
    some base2

/-- Segment of a format template: literal text or a named field. -/
inductive Seg where
  | lit (s : String)
  | field (s : String)
deriving DecidableEq, Repr

/-- Parse a str.format template into literal and field segments (simple
named fields only, which is all the source templates use). -/
def parseFmt : List Char → Bool → List Char → List Seg
  | [], false, acc => if acc.isEmpty then [] else [.lit (String.mk acc.reverse)]
  | [], true, acc => [.field (String.mk acc.reverse)]
  | c :: rest, false, acc =>
    if c = Char.ofNat 123 then
      (if acc.isEmpty then [] else [Seg.lit (String.mk acc.reverse)]) ++ parseFmt rest true []
    else parseFmt rest false (c :: acc)
  | c :: rest, true, acc =>
    if c = Char.ofNat 125 then Seg.field (String.mk acc.reverse) :: parseFmt rest false []
    else parseFmt rest true (c :: acc)

/-- Render the parsed template under a field environment. -/
def renderFmt (env : String → String) : List Seg → String
  | [] => ""
  | [Seg.lit s] => s
  | [Seg.field f] => env f
  | Seg.lit s :: rest => s ++ renderFmt env rest
  | Seg.field f :: rest => env f ++ renderFmt env rest

/-- Python str.format with keyword arguments given as an environment. -/
def pyFormat (pat : String) (env : String → String) : String :=
  renderFmt env (parseFmt pat.data false [])

/-- get_aggregator_urls from scrape_careers.py: each aggregator pattern is
formatted with the operator and city passed through quote_plus and the
state passed verbatim. -/
def get_aggregator_urls (operator city state : String) : List (String × String) :=
  AGGREGATOR_PATTERNS.map fun p =>
    (p.1, pyFormat p.2 (fun k =>
      if k = "operator" then quote_plus operator
      else if k = "city" then quote_plus city
      else if k = "state" then state
      else ""))

/-- Mock job record returned by scrape_operator_jobs (field names follow
the source dict keys). -/
structure JobData where
  operator : String
  location : String
  career_page : Option String
  aggregator_urls : List (String × String)
  last_checked : String
  jobs_found : Nat
  job_categories : List String
  hiring_status : String
  sample_jobs : List String
deriving DecidableEq, Repr

/-- scrape_operator_jobs from scrape_careers.py: builds the career page
URL and, when city and state are both truthy, the aggregator URLs; every
hiring metric is the constant placeholder.  The datetime.now() timestamp
is passed in as now. -/
def scrape_operator_jobs (now : String) (operator : String)
    (city state : Option String) : JobData :=
  { operator := operator
    location :=
      if truthy city && truthy state then (city.getD "") ++ ", " ++ (state.getD "")
      else "All locations"
    career_page := get_career_page_url operator city state
    aggregator_urls :=
      if truthy city && truthy state then
        get_aggregator_urls operator (city.getD "") (state.getD "")
      else []
    last_checked := now
    jobs_found := 0
    job_categories := []
    hiring_status := "Unknown"
    sample_jobs := [] }

/-- career_fields list from update_csv_with_careers. -/
def career_fields : List String :=
  ["careers_page_url", "jobs_last_checked", "open_positions_count",
   "job_categories", "hiring_status"]

/-- Per-row body of the update loop of update_csv_with_careers: rows whose
operator is absent or empty are left untouched; otherwise the five career
columns are assigned from the scraped (placeholder) job data. -/
def updateRow (now : String) (r : StrRow) : StrRow :=
  match lookupKV r "operator" with
  | none => r
  | some op =>
    if op = "" then r
    else
      let job_data := scrape_operator_jobs now op (lookupKV r "city") (lookupKV r "state")
      let r1 := setField r "careers_page_url" ((job_data.career_page).getD "")
      let r2 := setField r1 "jobs_last_checked" job_data.last_checked
      let r3 := setField r2 "open_positions_count" (toString job_data.jobs_found)
      let r4 := setField r3 "job_categories" (String.intercalate "," job_data.job_categories)
      setField r4 "hiring_status" job_data.hiring_status

/-- Effect of update_csv_with_careers on the CSV file: noWrite carries the
user-facing failure message printed when a career column is absent (the
file is not opened for writing); corrupted and written are as for the
schema extender. -/
inductive CareersOutcome where
  | noWrite (message : String)
  | corrupted (rowsSoFar : List (List String))
  | written (hdr : List String) (rows : List (List String))
deriving DecidableEq, Repr

/-- update_csv_with_careers from scrape_careers.py: abort with the message
when any of the five career columns is missing from the header, otherwise
update every row and rewrite the file with the original header. -/
def update_csv_with_careers (now : String) (header : List String)
    (rows : List StrRow) : CareersOutcome :=
  if career_fields.all (fun f => header.contains f) then
    match writeAll header (rows.map (updateRow now)) with
    | (outs, false) => .written header outs
    | (outs, true) => .corrupted outs
  else .noWrite "❌ CSV missing career fields. Add them first."

/-- A string on which the numeric conversion attempted by
convert_to_number fails: float() fails when the string contains a dot,
otherwise int() fails (the malformed numeric-looking strings of the
claims). -/
def parseFails (s : String) : Bool :=
  if s.data.contains '.' then (pyFloat? s).isNone else (pyInt? s).isNone

/-! Helper lemmas about the association-list row model. -/

theorem lookupKV_append {α : Type} (r1 r2 : List (String × α)) (k : String) :
    lookupKV (r1 ++ r2) k =
      match lookupKV r1 k with
      | some v => some v
      | none => lookupKV r2 k := by
  induction r1 with
  | nil => rfl
  | cons p rest ih =>
    by_cases hp : p.1 = k
    · simp [lookupKV, hp]
    · simp [lookupKV, hp, ih]

theorem lookupKV_mem {α : Type} (l : List (String × α)) (k : String) (v : α)
    (h : lookupKV l k = some v) : (k, v) ∈ l := by
  induction l with
  | nil => simp [lookupKV] at h
  | cons p rest ih =>
    obtain ⟨a, b⟩ := p
    by_cases hp : a = k
    · simp only [lookupKV, hp, if_pos] at h
      injection h with hv
      subst hp
      subst hv
      exact List.mem_cons_self _ _
    · simp only [lookupKV, hp, if_neg, if_false] at h
      · exact List.mem_cons_of_mem _ (ih h)

theorem lookupKV_not_found {α : Type} (r : List (String × α)) (k : String)
    (ha : r.any (fun p => p.1 == k) = false) : lookupKV r k = none := by
  induction r with
  | nil => rfl
  | cons p rest ih =>
    simp only [List.any_cons, Bool.or_eq_false_iff, beq_eq_false_iff_ne] at ha
    simp [lookupKV, ha.1, ih (by simp [ha.2])]

theorem lookupKV_map_replace (r : StrRow) (k v k' : String) (h : k' ≠ k) :
    lookupKV (r.map fun p => if p.1 == k then (k, v) else p) k' = lookupKV r k' := by
  induction r with
  | nil => rfl
  | cons p rest ih =>
    simp only [beq_iff_eq] at ih
    by_cases hp : p.1 = k
    · simp [lookupKV, hp, Ne.symm h, ih]
    · simp [lookupKV, hp, ih]

theorem lookupKV_map_replace_self (r : StrRow) (k v : String)
    (ha : r.any (fun p => p.1 == k) = true) :
    lookupKV (r.map fun p => if p.1 == k then (k, v) else p) k = some v := by
  induction r with
  | nil => simp at ha
  | cons p rest ih =>
    by_cases hp : p.1 = k
    · simp [lookupKV, hp]
    · have ha' : rest.any (fun p => p.1 == k) = true := by
        simp only [List.any_cons, Bool.or_eq_true] at ha
        rcases ha with h1 | h2
        · exact absurd (beq_iff_eq.mp h1) hp
        · exact h2
      have ih' := ih ha'
      simp only [beq_iff_eq] at ih'
      simp [lookupKV, hp, ih']

theorem lookupKV_setField_self (r : StrRow) (k v : String) :
    lookupKV (setField r k v) k = some v := by
  unfold setField
  split
  · exact lookupKV_map_replace_self r k v (by assumption)
  · rw [lookupKV_append, lookupKV_not_found r k (by rename_i hany; rw [Bool.not_eq_true] at hany; exact hany)]
    simp [lookupKV]

theorem lookupKV_setField_ne (r : StrRow) (k v k' : String) (h : k' ≠ k) :
    lookupKV (setField r k v) k' = lookupKV r k' := by
  unfold setField
  split
  · exact lookupKV_map_replace r k v k' h
  · rw [lookupKV_append]
    cases hl : lookupKV r k' with
    | some v2 => rfl
    | none => simp [lookupKV, Ne.symm h]

theorem popKey_keys {α : Type} (r : List (String × α)) (k : String) (v : α)
    (r2 : List (String × α)) (h : popKey r k = some (v, r2)) :
    r2.map Prod.fst = (r.map Prod.fst).erase k := by
  induction r generalizing v r2 with
  | nil => simp [popKey] at h
  | cons p rest ih =>
    by_cases hp : p.1 = k
    · rw [popKey, if_pos hp] at h
      injection h with h2
      injection h2 with hv hr
      subst hr
      simp [List.erase_cons, hp]
    · rw [popKey, if_neg hp] at h
      cases hrec : popKey rest k with
      | none => rw [hrec] at h; simp at h
      | some pr =>
        obtain ⟨v2, rest2⟩ := pr
        rw [hrec] at h
        injection h with h2
        injection h2 with hv hr
        subst hr
        simp [List.erase_cons, hp, ih v2 rest2 (by rw [hrec, hv])]

theorem popCoords_inv {r : Row} {la lo : Option String} {r2 : Row}
    (h : popCoords r = some (la, lo, r2)) :
    ∃ r1, popKey r "latitude" = some (la, r1) ∧
      popKey r1 "longitude" = some (lo, r2) := by
  unfold popCoords at h
  split at h
  · exact absurd h (by simp)
  · rename_i la1 r1 heq1
    split at h
    · exact absurd h (by simp)
    · rename_i lo1 r2x heq2
      simp only [Option.some.injEq, Prod.mk.injEq] at h
      obtain ⟨hla, hlo, hr2⟩ := h
      subst hla; subst hlo; subst hr2
      exact ⟨r1, heq1, heq2⟩

theorem convert_null_iff (v : Option String) :
    convert_to_number v = Value.null ↔ missingVal v = true := by
  cases v with
  | none => simp [convert_to_number, missingVal]
  | some s =>
    by_cases hs : s = ""
    · simp [convert_to_number, missingVal, hs]
    · rw [convert_to_number, if_neg hs]
      have : (s == "") = false := by simp [hs]
      rw [missingVal, this]
      simp only [Bool.false_eq_true, iff_false]
      split
      · cases pyFloat? s <;> simp
      · cases pyInt? s <;> simp

theorem isNumber_ne_null (v : Value) (h : v.isNumber = true) : v ≠ Value.null := by
  cases v <;> simp [Value.isNumber] at h ⊢

theorem processRow_ne_keyError (r : Row) (h : rowHasCoords r = true) :
    processRow r ≠ RowStep.keyError := by
  unfold rowHasCoords at h
  cases hp : popCoords r with
  | none => rw [hp] at h; simp at h
  | some t =>
    obtain ⟨la, lo, r2⟩ := t
    unfold processRow
    rw [hp]
    dsimp only
    split <;> simp

theorem length_filter_split {α : Type} (p : α → Bool) (l : List α) :
    (l.filter p).length + (l.filter (fun a => !p a)).length = l.length := by
  induction l with
  | nil => rfl
  | cons a l ih =>
    cases hp : p a <;> simp [List.filter_cons, hp, ← ih] <;> omega

theorem csv_to_geojson_eq (rows : List Row) (h : ∀ r ∈ rows, rowHasCoords r = true) :
    csv_to_geojson rows =
      some ((rows.filter keepRow).map featOf,
            (rows.filter (fun r => !keepRow r)).map warnOf) := by
  induction rows with
  | nil => rfl
  | cons r rs ih =>
    have hr := h r (List.mem_cons_self r rs)
    have ihh := ih (fun x hx => h x (List.mem_cons_of_mem r hx))
    cases hp : processRow r with
    | keyError => exact absurd hp (processRow_ne_keyError r hr)
    | skip w =>
      have hk : keepRow r = false := by simp [keepRow, hp]
      have hw : warnOf r = w := by simp [warnOf, hp]
      simp [csv_to_geojson, hp, ihh, List.filter_cons, hk, hw]
    | feat f =>
      have hk : keepRow r = true := by simp [keepRow, hp]
      have hf : featOf r = f := by simp [featOf, hp]
      simp [csv_to_geojson, hp, ihh, List.filter_cons, hk, hf]

theorem keepRow_false_iff (r : Row) (h : rowHasCoords r = true) :
    keepRow r = false ↔ coordsMissing r = true := by
  unfold rowHasCoords at h
  cases hp : popCoords r with
  | none => rw [hp] at h; simp at h
  | some t =>
    obtain ⟨la, lo, r2⟩ := t
    have hcond : (convert_to_number la = Value.null ∨ convert_to_number lo = Value.null)
        ↔ (missingVal la = true ∨ missingVal lo = true) :=
      or_congr (convert_null_iff la) (convert_null_iff lo)
    rw [keepRow, processRow, hp, coordsMissing, hp]
    dsimp only
    simp only [Bool.or_eq_true, decide_eq_true_eq]
    by_cases hm : missingVal la = true ∨ missingVal lo = true
    · rw [if_pos (hcond.mpr hm)]
      simp [Bool.or_eq_true, hm]
    · rw [if_neg (fun hx => hm (hcond.mp hx))]
      push_neg at hm
      simp [Bool.or_eq_true, hm.1, hm.2]

theorem pyIndex_eq_none (l : List String) (x : String) (h : x ∉ l) :
    pyIndex l x = none := by
  induction l with
  | nil => rfl
  | cons a t ih =>
    rw [pyIndex, if_neg (fun hh : a = x => h (hh ▸ List.mem_cons_self a t)),
        ih (fun hx => h (List.mem_cons_of_mem a hx))]
    rfl

theorem pyIndex_append_last (pre : List String) (x : String) (h : x ∉ pre) :
    pyIndex (pre ++ [x]) x = some pre.length := by
  induction pre with
  | nil => simp [pyIndex]
  | cons a t ih =>
    rw [List.cons_append, pyIndex,
        if_neg (fun hh : a = x => h (hh ▸ List.mem_cons_self a t)),
        ih (fun hx => h (List.mem_cons_of_mem a hx))]
    rfl

theorem setField_key_mem (r : StrRow) (k v : String) (p : String × String)
    (hp : p ∈ setField r k v) : p.1 ∈ r.map Prod.fst ∨ p.1 = k := by
  unfold setField at hp
  split at hp
  · obtain ⟨q, hq, hmap⟩ := List.mem_map.1 hp
    by_cases hqk : q.1 = k
    · right
      rw [← hmap, if_pos (show (q.1 == k) = true by simp [hqk])]
    · left
      rw [← hmap, if_neg (show ¬ (q.1 == k) = true by simp [hqk])]
      exact List.mem_map_of_mem _ hq
  · rcases List.mem_append.1 hp with hh | hh
    · left; exact List.mem_map_of_mem _ hh
    · right
      simp only [List.mem_singleton] at hh
      rw [hh]

theorem setField_keys_sub (r : StrRow) (k v x : String)
    (hx : x ∈ (setField r k v).map Prod.fst) : x ∈ r.map Prod.fst ∨ x = k := by
  obtain ⟨p, hp, hfst⟩ := List.mem_map.1 hx
  rcases setField_key_mem r k v p hp with h | h
  · left; rw [← hfst]; exact h
  · right; rw [← hfst]; exact h

theorem addEmpty_keys_sub (r : StrRow) (x : String)
    (hx : x ∈ (addEmpty r).map Prod.fst) :
    x ∈ r.map Prod.fst ∨ new_fields.contains x = true := by
  rw [show addEmpty r = setField (setField (setField (setField (setField r
        "careers_page_url" "") "jobs_last_checked" "") "open_positions_count" "")
        "job_categories" "") "hiring_status" "" from rfl] at hx
  rcases setField_keys_sub _ _ _ _ hx with hx | hx
  swap
  · right; rw [hx]; decide
  rcases setField_keys_sub _ _ _ _ hx with hx | hx
  swap
  · right; rw [hx]; decide
  rcases setField_keys_sub _ _ _ _ hx with hx | hx
  swap
  · right; rw [hx]; decide
  rcases setField_keys_sub _ _ _ _ hx with hx | hx
  swap
  · right; rw [hx]; decide
  rcases setField_keys_sub _ _ _ _ hx with hx | hx
  swap
  · right; rw [hx]; decide
  exact Or.inl hx

theorem lookupKV_addEmpty (r : StrRow) (f : String) :
    lookupKV (addEmpty r) f =
      if new_fields.contains f then some "" else lookupKV r f := by
  rw [show addEmpty r = setField (setField (setField (setField (setField r
        "careers_page_url" "") "jobs_last_checked" "") "open_positions_count" "")
        "job_categories" "") "hiring_status" "" from rfl]
  by_cases h1 : f = "careers_page_url"
  · subst h1
    rw [lookupKV_setField_ne _ _ _ _ (by decide), lookupKV_setField_ne _ _ _ _ (by decide),
        lookupKV_setField_ne _ _ _ _ (by decide), lookupKV_setField_ne _ _ _ _ (by decide),
        lookupKV_setField_self, if_pos (by decide)]
  by_cases h2 : f = "jobs_last_checked"
  · subst h2
    rw [lookupKV_setField_ne _ _ _ _ (by decide), lookupKV_setField_ne _ _ _ _ (by decide),
        lookupKV_setField_ne _ _ _ _ (by decide), lookupKV_setField_self, if_pos (by decide)]
  by_cases h3 : f = "open_positions_count"
  · subst h3
    rw [lookupKV_setField_ne _ _ _ _ (by decide), lookupKV_setField_ne _ _ _ _ (by decide),
        lookupKV_setField_self, if_pos (by decide)]
  by_cases h4 : f = "job_categories"
  · subst h4
    rw [lookupKV_setField_ne _ _ _ _ (by decide), lookupKV_setField_self, if_pos (by decide)]
  by_cases h5 : f = "hiring_status"
  · subst h5
    rw [lookupKV_setField_self, if_pos (by decide)]
  rw [lookupKV_setField_ne _ _ _ _ h5, lookupKV_setField_ne _ _ _ _ h4,
      lookupKV_setField_ne _ _ _ _ h3, lookupKV_setField_ne _ _ _ _ h2,
      lookupKV_setField_ne _ _ _ _ h1, if_neg]
  intro hc
  have hf : f ∈ new_fields := by simpa using hc
  simp only [new_fields, List.mem_cons, List.not_mem_nil, or_false] at hf
  rcases hf with hf | hf | hf | hf | hf
  · exact h1 hf
  · exact h2 hf
  · exact h3 hf
  · exact h4 hf
  · exact h5 hf

theorem writeRow_ok (fns : List String) (r : StrRow)
    (h : ∀ p ∈ r, fns.contains p.1 = true) :
    writeRow fns r = some (fns.map fun f => (lookupKV r f).getD "") := by
  unfold writeRow
  rw [if_pos (List.all_eq_true.mpr h)]

theorem writeAll_ok (fns : List String) (rs : List StrRow)
    (h : ∀ r ∈ rs, ∀ p ∈ r, fns.contains p.1 = true) :
    writeAll fns rs =
      (rs.map fun r => fns.map fun f => (lookupKV r f).getD "", false) := by
  induction rs with
  | nil => rfl
  | cons r rs ih =>
    rw [writeAll, writeRow_ok fns r (h r (List.mem_cons_self r rs)),
        ih (fun x hx => h x (List.mem_cons_of_mem r hx))]
    rfl

theorem career_pages_no_placeholders :
    ∀ q ∈ CAREER_PAGES, strContains q.2.url "\x7bcity\x7d" = false ∧
      strContains q.2.url "\x7bstate\x7d" = false := by decide

theorem get_career_page_url_eq (op : String) (city state : Option String) :
    get_career_page_url op city state =
      (lookupKV CAREER_PAGES op).map (fun p => p.url) := by
  unfold get_career_page_url
  cases h : lookupKV CAREER_PAGES op with
  | none => rfl
  | some page =>
    have hmem := lookupKV_mem _ _ _ h
    have hnc := (career_pages_no_placeholders _ hmem).1
    have hns := (career_pages_no_placeholders _ hmem).2
    cases city <;> cases state <;> simp_all

theorem updateRow_unfold (now : String) (r : StrRow) (op : String)
    (hop : lookupKV r "operator" = some op) (hne : op ≠ "") :
    updateRow now r =
      setField (setField (setField (setField (setField r
        "careers_page_url" (((lookupKV CAREER_PAGES op).map (fun p => p.url)).getD ""))
        "jobs_last_checked" now)
        "open_positions_count" "0")
        "job_categories" "")
        "hiring_status" "Unknown" := by
  unfold updateRow
  rw [hop]
  dsimp only
  rw [if_neg hne]
  simp only [scrape_operator_jobs, get_career_page_url_eq]
  rfl

theorem updateRow_fields (now : String) (r : StrRow) (op : String)
    (hop : lookupKV r "operator" = some op) (hne : op ≠ "") :
    lookupKV (updateRow now r) "careers_page_url" =
        some (((lookupKV CAREER_PAGES op).map (fun p => p.url)).getD "") ∧
    lookupKV (updateRow now r) "jobs_last_checked" = some now ∧
    lookupKV (updateRow now r) "open_positions_count" = some "0" ∧
    lookupKV (updateRow now r) "job_categories" = some "" ∧
    lookupKV (updateRow now r) "hiring_status" = some "Unknown" := by
  rw [updateRow_unfold now r op hop hne]
  refine ⟨?_, ?_, ?_, ?_, ?_⟩
  · rw [lookupKV_setField_ne _ _ _ _ (by decide), lookupKV_setField_ne _ _ _ _ (by decide),
        lookupKV_setField_ne _ _ _ _ (by decide), lookupKV_setField_ne _ _ _ _ (by decide),
        lookupKV_setField_self]
  · rw [lookupKV_setField_ne _ _ _ _ (by decide), lookupKV_setField_ne _ _ _ _ (by decide),
        lookupKV_setField_ne _ _ _ _ (by decide), lookupKV_setField_self]
  · rw [lookupKV_setField_ne _ _ _ _ (by decide), lookupKV_setField_ne _ _ _ _ (by decide),
        lookupKV_setField_self]
  · rw [lookupKV_setField_ne _ _ _ _ (by decide), lookupKV_setField_self]
  · rw [lookupKV_setField_self]

theorem updateRow_keys_sub (now : String) (r : StrRow) (x : String)
    (hx : x ∈ (updateRow now r).map Prod.fst) :
    x ∈ r.map Prod.fst ∨ career_fields.contains x = true := by
  unfold updateRow at hx
  cases hop : lookupKV r "operator" with
  | none => rw [hop] at hx; exact Or.inl hx
  | some op =>
    rw [hop] at hx
    dsimp only at hx
    by_cases hne : op = ""
    · rw [if_pos hne] at hx; exact Or.inl hx
    · rw [if_neg hne] at hx
      rcases setField_keys_sub _ _ _ _ hx with hx | hx
      swap
      · right; rw [hx]; decide
      rcases setField_keys_sub _ _ _ _ hx with hx | hx
      swap
      · right; rw [hx]; decide
      rcases setField_keys_sub _ _ _ _ hx with hx | hx
      swap
      · right; rw [hx]; decide
      rcases setField_keys_sub _ _ _ _ hx with hx | hx
      swap
      · right; rw [hx]; decide
      rcases setField_keys_sub _ _ _ _ hx with hx | hx
      swap
      · right; rw [hx]; decide
      exact Or.inl hx

theorem updateRow_skip (now : String) (r : StrRow)
    (h : lookupKV r "operator" = none ∨ lookupKV r "operator" = some "") :
    updateRow now r = r := by
  unfold updateRow
  rcases h with h | h
  · rw [h]
  · rw [h]
    rfl

theorem processRow_skip_eq (r : Row) (w : String) (hw : processRow r = RowStep.skip w) :
    w = "Warning: Skipping row with missing coordinates: " ++ nameOf (restAfterPop r) := by
  unfold processRow at hw
  cases hp : popCoords r with
  | none => rw [hp] at hw; simp at hw
  | some t =>
    obtain ⟨la, lo, r2⟩ := t
    rw [hp] at hw
    dsimp only at hw
    rw [restAfterPop, hp]
    split at hw
    · injection hw with hmsg
      exact hmsg.symm
    · exact absurd hw (by simp)

/-! Claim theorems. -/

/-- C4 (confirmed): the numeric coercion never raises; for a malformed
numeric-looking string it returns the original string unchanged,
including when the value belongs to a field of the numeric allow-list. -/
theorem c4_thm (s : String) (h1 : s ≠ "") (h2 : parseFails s = true) :
    convert_to_number (some s) = Value.str s ∧
    ∀ k, numeric_fields.contains k = true → convertField k (some s) = Value.str s := by
  have hmain : convert_to_number (some s) = Value.str s := by
    unfold parseFails at h2
    rw [convert_to_number, if_neg h1]
    by_cases hdot : s.data.contains '.' = true
    · rw [if_pos hdot]
      rw [if_pos hdot] at h2
      rw [Option.isNone_iff_eq_none] at h2
      rw [h2]
    · rw [if_neg hdot]
      rw [if_neg hdot] at h2
      rw [Option.isNone_iff_eq_none] at h2
      rw [h2]
  refine ⟨hmain, fun k hk => ?_⟩
  rw [convertField, if_pos hk, hmain]

/-- C4 witness at the malformed literal 12.3.4 (two dots, so float()
fails and the string passes through). -/
theorem c4_witness :
    ("12.3.4" : String) ≠ "" ∧ parseFails "12.3.4" = true ∧
    (convert_to_number (some "12.3.4") = Value.str "12.3.4" ∧
     ∀ k, numeric_fields.contains k = true →
       convertField k (some "12.3.4") = Value.str "12.3.4") :=
  ⟨by decide, by decide, c4_thm "12.3.4" (by decide) (by decide)⟩

/-- C5 (confirmed): the literal 3.5 converts to the float 3.5, the
literal 42 to the integer 42, the empty string to the absence marker
(null, distinct from 0 and from the empty string), and in general a
parsed literal without a dot becomes an integer and one with a dot a
float, also through the allow-list field conversion. -/
theorem c5_thm :
    convert_to_number (some "3.5") = Value.float (3.5 : Rat) ∧
    convert_to_number (some "42") = Value.int 42 ∧
    convert_to_number (some "") = Value.null ∧
    Value.null ≠ Value.int 0 ∧
    Value.null ≠ Value.str "" ∧
    (∀ k, numeric_fields.contains k = true →
       convertField k (some "3.5") = Value.float (3.5 : Rat) ∧
       convertField k (some "42") = Value.int 42 ∧
       convertField k (some "") = Value.null) ∧
    (∀ (s : String) (n : Int), s.data.contains '.' = false → pyInt? s = some n →
       convert_to_number (some s) = Value.int n) ∧
    (∀ (s : String) (q : Rat), s.data.contains '.' = true → pyFloat? s = some q →
       convert_to_number (some s) = Value.float q) := by
  have h35 : convert_to_number (some "3.5") = Value.float (3.5 : Rat) := by
    rw [show convert_to_number (some "3.5") =
      Value.float (((1 : Int) : Rat) *
        (((3 : Nat) : Rat) + ((5 : Nat) : Rat) / (10 : Rat) ^ (1 : Nat))) from rfl]
    norm_num
  have h42 : convert_to_number (some "42") = Value.int 42 := by decide
  have hempty : convert_to_number (some "") = Value.null := by decide
  refine ⟨h35, h42, hempty, by decide, by decide, fun k hk => ?_, ?_, ?_⟩
  · rw [convertField, if_pos hk, convertField, if_pos hk, convertField, if_pos hk]
    exact ⟨h35, h42, hempty⟩
  · intro s n hdot hparse
    have hne : s ≠ "" := by
      intro he
      subst he
      simp [pyInt?, stripWS] at hparse
    rw [convert_to_number, if_neg hne, if_neg (by rw [hdot]; simp), hparse]
  · intro s q hdot hparse
    have hne : s ≠ "" := by
      intro he
      subst he
      exact absurd hdot (by decide)
    rw [convert_to_number, if_neg hne, if_pos hdot, hparse]

/-- C5 witness: the general integer clause applied at the literal 7 and
the allow-list clause applied at the field pue. -/
theorem c5_witness :
    numeric_fields.contains "pue" = true ∧
    ("7" : String).data.contains '.' = false ∧
    pyInt? "7" = some 7 ∧
    convert_to_number (some "7") = Value.int 7 ∧
    (convertField "pue" (some "3.5") = Value.float (3.5 : Rat) ∧
     convertField "pue" (some "42") = Value.int 42 ∧
     convertField "pue" (some "") = Value.null) :=
  ⟨by decide, by decide, by decide,
   c5_thm.2.2.2.2.2.2.1 "7" 7 (by decide) (by decide),
   c5_thm.2.2.2.2.2.1 "pue" (by decide)⟩

/-- C2 counterexample: a row whose latitude is the non-empty but
unparseable string abc is NOT skipped — the converter emits a feature
whose latitude coordinate is the raw string, so a row with a coordinate
that is not parseable as a number can survive, contradicting the claim
that such rows are excluded. -/
theorem c2_counterexample :
    keepRow [("latitude", some "abc"), ("longitude", some "5"), ("name", some "X")] = true ∧
    csv_to_geojson [[("latitude", some "abc"), ("longitude", some "5"), ("name", some "X")]] =
      some ([{ ftype := "Feature", properties := [("name", Value.str "X")],
               geometryType := "Point",
               coordinates := [Value.int 5, Value.str "abc"] }], []) := by decide

/-- C2 (corrected): rows whose latitude or longitude value is missing
(None) or empty are skipped with a diagnostic naming the record
(Unknown when the name field is absent), processing continues, and the
feature count is the row count minus the number of skipped rows; a row
is skipped exactly when a raw coordinate value is missing or empty, so
non-empty unparseable values do NOT cause a skip. -/
theorem c2_thm (rows : List Row) (h : ∀ r ∈ rows, rowHasCoords r = true) :
    ∃ fs ws, csv_to_geojson rows = some (fs, ws) ∧
      fs.length + ws.length = rows.length ∧
      fs.length = rows.length - ws.length ∧
      fs = (rows.filter keepRow).map featOf ∧
      ws = (rows.filter (fun r => !keepRow r)).map warnOf ∧
      (∀ r ∈ rows, (keepRow r = false ↔ coordsMissing r = true)) ∧
      (∀ r ∈ rows, keepRow r = false →
        warnOf r = "Warning: Skipping row with missing coordinates: " ++
          nameOf (restAfterPop r)) := by
  have hlen : ((rows.filter keepRow).map featOf).length +
      ((rows.filter (fun r => !keepRow r)).map warnOf).length = rows.length := by
    rw [List.length_map, List.length_map]
    exact length_filter_split keepRow rows
  refine ⟨_, _, csv_to_geojson_eq rows h, hlen, by omega, rfl, rfl, ?_, ?_⟩
  · exact fun r hr => keepRow_false_iff r (h r hr)
  · intro r hr hk
    cases hps : processRow r with
    | keyError => exact absurd hps (processRow_ne_keyError r (h r hr))
    | feat f =>
      rw [keepRow, hps] at hk
      simp at hk
    | skip w =>
      rw [warnOf, hps]
      exact processRow_skip_eq r w hps

/-- C2 witness: one surviving row and one row with an empty latitude;
the converter keeps the first, warns about the second by name, and the
feature count is the row count minus one. -/
theorem c2_witness :
    (∀ r ∈ [[(("latitude" : String), some "1"), ("longitude", some "2")],
            [("latitude", some ""), ("longitude", some "3"), ("name", some "Riverbend")]],
        rowHasCoords r = true) ∧
    (∃ fs ws,
      csv_to_geojson [[(("latitude" : String), some "1"), ("longitude", some "2")],
                      [("latitude", some ""), ("longitude", some "3"), ("name", some "Riverbend")]] =
        some (fs, ws) ∧
      fs.length + ws.length = 2 ∧
      fs.length = 2 - ws.length ∧
      fs = ([[(("latitude" : String), some "1"), ("longitude", some "2")],
             [("latitude", some ""), ("longitude", some "3"), ("name", some "Riverbend")]].filter
               keepRow).map featOf ∧
      ws = ([[(("latitude" : String), some "1"), ("longitude", some "2")],
             [("latitude", some ""), ("longitude", some "3"), ("name", some "Riverbend")]].filter
               (fun r => !keepRow r)).map warnOf ∧
      (∀ r ∈ [[(("latitude" : String), some "1"), ("longitude", some "2")],
              [("latitude", some ""), ("longitude", some "3"), ("name", some "Riverbend")]],
        (keepRow r = false ↔ coordsMissing r = true)) ∧
      (∀ r ∈ [[(("latitude" : String), some "1"), ("longitude", some "2")],
              [("latitude", some ""), ("longitude", some "3"), ("name", some "Riverbend")]],
        keepRow r = false →
          warnOf r = "Warning: Skipping row with missing coordinates: " ++
            nameOf (restAfterPop r))) :=
  ⟨by decide, c2_thm _ (by decide)⟩

/-- C6 (confirmed): a row with numeric latitude and longitude yields one
feature with geometry type Point, coordinates exactly [longitude,
latitude], and properties from which the latitude and longitude keys
have been removed. -/
theorem c6_thm (r : Row) (la lo : Option String) (r2 : Row)
    (hpop : popCoords r = some (la, lo, r2))
    (hnd : (r.map Prod.fst).Nodup)
    (hla : (convert_to_number la).isNumber = true)
    (hlo : (convert_to_number lo).isNumber = true) :
    processRow r =
      RowStep.feat (mkFeature (convert_to_number lo) (convert_to_number la) r2) ∧
    (mkFeature (convert_to_number lo) (convert_to_number la) r2).geometryType = "Point" ∧
    (mkFeature (convert_to_number lo) (convert_to_number la) r2).coordinates =
      [convert_to_number lo, convert_to_number la] ∧
    (mkFeature (convert_to_number lo) (convert_to_number la) r2).ftype = "Feature" ∧
    "latitude" ∉ (mkFeature (convert_to_number lo) (convert_to_number la) r2).properties.map Prod.fst ∧
    "longitude" ∉ (mkFeature (convert_to_number lo) (convert_to_number la) r2).properties.map Prod.fst := by
  obtain ⟨r1, h1, h2⟩ := popCoords_inv hpop
  have hkeys1 : r1.map Prod.fst = (r.map Prod.fst).erase "latitude" := popKey_keys _ _ _ _ h1
  have hkeys2 : r2.map Prod.fst = (r1.map Prod.fst).erase "longitude" := popKey_keys _ _ _ _ h2
  have hprops : (mkFeature (convert_to_number lo) (convert_to_number la) r2).properties.map Prod.fst =
      r2.map Prod.fst := by
    simp [mkFeature, List.map_map]
  have hproc : processRow r =
      RowStep.feat (mkFeature (convert_to_number lo) (convert_to_number la) r2) := by
    unfold processRow
    rw [hpop]
    dsimp only
    rw [if_neg]
    intro hcon
    simp only [Bool.or_eq_true, decide_eq_true_eq] at hcon
    rcases hcon with hc | hc
    · exact isNumber_ne_null _ hla hc
    · exact isNumber_ne_null _ hlo hc
  refine ⟨hproc, rfl, rfl, rfl, ?_, ?_⟩
  · rw [hprops, hkeys2, hkeys1]
    intro hmem
    exact hnd.not_mem_erase (List.mem_of_mem_erase hmem)
  · rw [hprops, hkeys2, hkeys1]
    exact (hnd.erase "latitude").not_mem_erase

/-- C6 witness at a concrete row with integer coordinates. -/
theorem c6_witness :
    popCoords [(("latitude" : String), some "37"), ("longitude", some "-122"), ("name", some "HQ")] =
      some (some "37", some "-122", [("name", some "HQ")]) ∧
    ((([(("latitude" : String), some "37"), ("longitude", some "-122"),
        ("name", some "HQ")] : Row).map Prod.fst).Nodup) ∧
    (convert_to_number (some "37")).isNumber = true ∧
    (convert_to_number (some "-122")).isNumber = true ∧
    (processRow [(("latitude" : String), some "37"), ("longitude", some "-122"), ("name", some "HQ")] =
      RowStep.feat (mkFeature (convert_to_number (some "-122")) (convert_to_number (some "37"))
        [("name", some "HQ")]) ∧
     (mkFeature (convert_to_number (some "-122")) (convert_to_number (some "37"))
        [("name", some "HQ")]).geometryType = "Point" ∧
     (mkFeature (convert_to_number (some "-122")) (convert_to_number (some "37"))
        [("name", some "HQ")]).coordinates =
       [convert_to_number (some "-122"), convert_to_number (some "37")] ∧
     (mkFeature (convert_to_number (some "-122")) (convert_to_number (some "37"))
        [("name", some "HQ")]).ftype = "Feature" ∧
     "latitude" ∉ (mkFeature (convert_to_number (some "-122")) (convert_to_number (some "37"))
        [("name", some "HQ")]).properties.map Prod.fst ∧
     "longitude" ∉ (mkFeature (convert_to_number (some "-122")) (convert_to_number (some "37"))
        [("name", some "HQ")]).properties.map Prod.fst) :=
  ⟨by decide, by decide, by decide, by decide,
   c6_thm _ _ _ _ (by decide) (by decide) (by decide) (by decide)⟩

/-- C7 (confirmed): without the anchor column notes the schema extender
raises before the destination is opened for writing, so the destination
file is left unmodified. -/
theorem c7_thm (header : List String) (rows : List StrRow)
    (h : "notes" ∉ header) :
    add_jobs_fields header rows = AddJobsOutcome.notOpened := by
  unfold add_jobs_fields
  rw [pyIndex_eq_none header "notes" h]

/-- C7 witness at a header without the anchor. -/
theorem c7_witness :
    ("notes" ∉ (["name", "city"] : List String)) ∧
    add_jobs_fields ["name", "city"] [[("name", "A")]] = AddJobsOutcome.notOpened :=
  ⟨by decide, c7_thm ["name", "city"] [[("name", "A")]] (by decide)⟩

/-- C1 counterexample: with the header [name, notes, extra] — which
contains the anchor notes — the produced header drops the column after
notes, so its length is 7 and not the claimed 3 + 5, and the existing
column extra is not preserved. -/
theorem c1_counterexample :
    add_jobs_fields ["name", "notes", "extra"] [] =
      AddJobsOutcome.written (["name"] ++ new_fields ++ ["notes"]) [] ∧
    (["name"] ++ new_fields ++ ["notes"]).length ≠
      (["name", "notes", "extra"] : List String).length + 5 ∧
    "extra" ∉ ["name"] ++ new_fields ++ ["notes"] := by decide

/-- C1 (corrected): when the anchor notes is the LAST column (as in the
shipped dataset) and the rows range over the header columns, the
extender writes the header with the five new names inserted before
notes, the column count grows by five, and every rewritten row has the
empty string in each new field. -/
theorem c1_thm (pre : List String) (rows : List StrRow)
    (hpre : "notes" ∉ pre)
    (hkeys : ∀ r ∈ rows, ∀ p ∈ r, p.1 ∈ pre ++ ["notes"]) :
    add_jobs_fields (pre ++ ["notes"]) rows =
      AddJobsOutcome.written (pre ++ new_fields ++ ["notes"])
        (rows.map fun r => (pre ++ new_fields ++ ["notes"]).map fun f =>
          if new_fields.contains f then "" else (lookupKV r f).getD "") ∧
    (pre ++ new_fields ++ ["notes"]).length = (pre ++ ["notes"]).length + 5 ∧
    ∀ r ∈ rows, ∀ f ∈ new_fields, lookupKV (addEmpty r) f = some "" := by
  refine ⟨?_, ?_, ?_⟩
  · unfold add_jobs_fields
    rw [pyIndex_append_last pre "notes" hpre]
    dsimp only
    rw [List.take_left, List.drop_left,
        show (["notes"] : List String).take 1 = ["notes"] from rfl]
    have hall : ∀ r' ∈ rows.map addEmpty, ∀ p ∈ r',
        (pre ++ new_fields ++ ["notes"]).contains p.1 = true := by
      intro r' hr' p hp
      obtain ⟨r, hr, hre⟩ := List.mem_map.1 hr'
      subst hre
      have hx : p.1 ∈ (addEmpty r).map Prod.fst := List.mem_map_of_mem _ hp
      rcases addEmpty_keys_sub r p.1 hx with hh | hh
      · obtain ⟨q, hq, hq1⟩ := List.mem_map.1 hh
        have hq2 := hkeys r hr q hq
        rw [← hq1]
        have : q.1 ∈ pre ++ new_fields ++ ["notes"] := by
          rcases List.mem_append.1 hq2 with h | h
          · exact List.mem_append.2 (Or.inl (List.mem_append.2 (Or.inl h)))
          · exact List.mem_append.2 (Or.inr h)
        simpa using this
      · have : p.1 ∈ pre ++ new_fields ++ ["notes"] := by
          have hm : p.1 ∈ new_fields := by simpa using hh
          exact List.mem_append.2 (Or.inl (List.mem_append.2 (Or.inr hm)))
        simpa using this
    rw [writeAll_ok _ _ hall, List.map_map]
    have hfun : ∀ r ∈ rows,
        ((fun r => (pre ++ new_fields ++ ["notes"]).map fun f => (lookupKV r f).getD "") ∘ addEmpty) r =
        (pre ++ new_fields ++ ["notes"]).map fun f =>
          if new_fields.contains f then "" else (lookupKV r f).getD "" := by
      intro r hr
      dsimp only [Function.comp]
      refine List.map_congr_left fun f hf => ?_
      rw [lookupKV_addEmpty]
      split
      · rfl
      · rfl
    rw [List.map_congr_left hfun]
  · simp [new_fields]
  · intro r hr f hf
    rw [lookupKV_addEmpty, if_pos (by simpa using hf)]

/-- C1 witness at a two-column CSV whose last column is notes. -/
theorem c1_witness :
    ("notes" ∉ (["name"] : List String)) ∧
    (∀ r ∈ [[(("name" : String), "A"), ("notes", "x")]], ∀ p ∈ r,
        p.1 ∈ ["name"] ++ ["notes"]) ∧
    add_jobs_fields (["name"] ++ ["notes"]) [[(("name" : String), "A"), ("notes", "x")]] =
      AddJobsOutcome.written (["name"] ++ new_fields ++ ["notes"])
        ([[(("name" : String), "A"), ("notes", "x")]].map fun r =>
          (["name"] ++ new_fields ++ ["notes"]).map fun f =>
            if new_fields.contains f then "" else (lookupKV r f).getD "") :=
  ⟨by decide, by decide,
   (c1_thm ["name"] [[("name", "A"), ("notes", "x")]] (by decide) (by decide)).1⟩

/-- C8 (confirmed): when a required career column is missing, the bulk
update aborts with the user-facing failure message and performs no
write at all. -/
theorem c8_thm (now : String) (header : List String) (rows : List StrRow)
    (h : career_fields.all (fun f => header.contains f) = false) :
    update_csv_with_careers now header rows =
      CareersOutcome.noWrite "❌ CSV missing career fields. Add them first." := by
  unfold update_csv_with_careers
  rw [if_neg (by rw [h]; simp)]

/-- C8 witness at a header with none of the career columns. -/
theorem c8_witness :
    career_fields.all (fun f => (["name", "operator"] : List String).contains f) = false ∧
    update_csv_with_careers "T0" ["name", "operator"] [[("name", "A"), ("operator", "Meta")]] =
      CareersOutcome.noWrite "❌ CSV missing career fields. Add them first." :=
  ⟨by decide, c8_thm "T0" ["name", "operator"] [[("name", "A"), ("operator", "Meta")]] (by decide)⟩

/-- C3 counterexample: with all five career columns present, a row whose
operator is the empty string is NOT rewritten — its hiring_status cell
keeps the old value Active instead of the placeholder Unknown — so the
bulk update does not rewrite the career columns of every row. -/
theorem c3_counterexample :
    update_csv_with_careers "T0" (career_fields ++ ["operator"])
        [[("operator", ""), ("hiring_status", "Active")]] =
      CareersOutcome.written (career_fields ++ ["operator"])
        [["", "", "", "", "Active", ""]] ∧
    ("Active" : String) ≠ "Unknown" := by decide

/-- C3 (corrected): with all five career columns present and rows over
the header columns, the bulk update writes the file, and every row with
a present non-empty operator gets the placeholder career values (career
page from the operator table or empty, the timestamp, 0 positions, no
categories, Unknown hiring status); a row with an absent or empty
operator is left unchanged. -/
theorem c3_thm (now : String) (header : List String) (rows : List StrRow)
    (hc : career_fields.all (fun f => header.contains f) = true)
    (hkeys : ∀ r ∈ rows, ∀ p ∈ r, header.contains p.1 = true) :
    update_csv_with_careers now header rows =
      CareersOutcome.written header
        (rows.map fun r => header.map fun f => (lookupKV (updateRow now r) f).getD "") ∧
    (∀ r ∈ rows, ∀ op, lookupKV r "operator" = some op → op ≠ "" →
      (lookupKV (updateRow now r) "careers_page_url" =
          some (((lookupKV CAREER_PAGES op).map (fun p => p.url)).getD "") ∧
       lookupKV (updateRow now r) "jobs_last_checked" = some now ∧
       lookupKV (updateRow now r) "open_positions_count" = some "0" ∧
       lookupKV (updateRow now r) "job_categories" = some "" ∧
       lookupKV (updateRow now r) "hiring_status" = some "Unknown")) ∧
    (∀ r ∈ rows, (lookupKV r "operator" = none ∨ lookupKV r "operator" = some "") →
      updateRow now r = r) := by
  refine ⟨?_, fun r _ op hop hne => updateRow_fields now r op hop hne,
    fun r _ hfalsy => updateRow_skip now r hfalsy⟩
  unfold update_csv_with_careers
  rw [if_pos hc]
  have hall : ∀ r' ∈ rows.map (updateRow now), ∀ p ∈ r', header.contains p.1 = true := by
    intro r' hr' p hp
    obtain ⟨r, hr, hre⟩ := List.mem_map.1 hr'
    subst hre
    have hx : p.1 ∈ (updateRow now r).map Prod.fst := List.mem_map_of_mem _ hp
    rcases updateRow_keys_sub now r p.1 hx with hh | hh
    · obtain ⟨q, hq, hq1⟩ := List.mem_map.1 hh
      rw [← hq1]
      exact hkeys r hr q hq
    · have hmem : p.1 ∈ career_fields := by simpa using hh
      exact List.all_eq_true.mp hc _ hmem
  rw [writeAll_ok _ _ hall, List.map_map]
  rfl

/-- C3 witness at a one-row CSV with the Meta operator. -/
theorem c3_witness :
    career_fields.all (fun f => (career_fields ++ ["operator", "city", "state"]).contains f) = true ∧
    (∀ r ∈ [[(("operator" : String), "Meta"), ("city", "Austin"), ("state", "TX")]], ∀ p ∈ r,
        (career_fields ++ ["operator", "city", "state"]).contains p.1 = true) ∧
    update_csv_with_careers "T0" (career_fields ++ ["operator", "city", "state"])
        [[(("operator" : String), "Meta"), ("city", "Austin"), ("state", "TX")]] =
      CareersOutcome.written (career_fields ++ ["operator", "city", "state"])
        ([[(("operator" : String), "Meta"), ("city", "Austin"), ("state", "TX")]].map fun r =>
          (career_fields ++ ["operator", "city", "state"]).map fun f =>
            (lookupKV (updateRow "T0" r) f).getD "") :=
  ⟨by decide, by decide,
   (c3_thm "T0" (career_fields ++ ["operator", "city", "state"])
     [[("operator", "Meta"), ("city", "Austin"), ("state", "TX")]] (by decide) (by decide)).1⟩

/-- C9 (confirmed): the URL generator called with Meta and no city or
state returns the template unchanged; an operator absent from the table
yields an absent URL rather than an error; and with truthy city and
state the stub still returns a non-empty aggregator URL set. -/
theorem c9_thm :
    get_career_page_url "Meta" none none =
      some "https://www.metacareers.com/jobs?q=data%20center" ∧
    (∀ (operator : String) (city state : Option String),
      lookupKV CAREER_PAGES operator = none →
        get_career_page_url operator city state = none) ∧
    (∀ (now operator city state : String), city ≠ "" → state ≠ "" →
      (scrape_operator_jobs now operator (some city) (some state)).aggregator_urls ≠ []) := by
  refine ⟨by decide, ?_, ?_⟩
  · intro operator city state h
    unfold get_career_page_url
    rw [h]
  · intro now operator city state hc hs
    unfold scrape_operator_jobs
    dsimp only
    rw [if_pos (by simp [truthy, hc, hs])]
    simp [get_aggregator_urls, AGGREGATOR_PATTERNS]

/-- C9 witness: an operator outside the table with a concrete city and
state. -/
theorem c9_witness :
    lookupKV CAREER_PAGES "Acme Data" = none ∧
    get_career_page_url "Acme Data" (some "Austin") (some "TX") = none ∧
    (("Austin" : String) ≠ "" ∧ ("TX" : String) ≠ "") ∧
    (scrape_operator_jobs "T0" "Acme Data" (some "Austin") (some "TX")).aggregator_urls ≠ [] :=
  ⟨by decide, c9_thm.2.1 "Acme Data" (some "Austin") (some "TX") (by decide),
   ⟨by decide, by decide⟩,
   c9_thm.2.2 "T0" "Acme Data" "Austin" "TX" (by decide) (by decide)⟩

/-- C10 (confirmed): for every operator, city and state the aggregator
URL map has exactly the keys linkedin, indeed and glassdoor; the
operator and city values are passed through quote_plus before
substitution while the state is substituted verbatim (and the glassdoor
template does not use the state at all). -/
theorem c10_thm (operator city state : String) :
    get_aggregator_urls operator city state =
      [("linkedin", "https://www.linkedin.com/jobs/search/?keywords=" ++
         (quote_plus operator ++ ("%20" ++ (quote_plus city ++
           ("&location=" ++ (quote_plus city ++ ("%2C%20" ++ state))))))),
       ("indeed", "https://www.indeed.com/jobs?q=" ++
         (quote_plus operator ++ ("%20" ++ (quote_plus city ++
           ("&l=" ++ (quote_plus city ++ ("%2C%20" ++ state))))))),
       ("glassdoor", "https://www.glassdoor.com/Job/jobs.htm?sc.keyword=" ++
         (quote_plus operator ++ ("%20" ++ (quote_plus city ++
           ("&locT=C&locId=" ++ quote_plus city)))))] ∧
    (get_aggregator_urls operator city state).map Prod.fst =
      ["linkedin", "indeed", "glassdoor"] := by
  have h1 : parseFmt ("https://www.linkedin.com/jobs/search/?keywords=\x7boperator\x7d%20\x7bcity\x7d&location=\x7bcity\x7d%2C%20\x7bstate\x7d" : String).data false [] =
      [Seg.lit "https://www.linkedin.com/jobs/search/?keywords=", Seg.field "operator",
       Seg.lit "%20", Seg.field "city", Seg.lit "&location=", Seg.field "city",
       Seg.lit "%2C%20", Seg.field "state"] := by decide
  have h2 : parseFmt ("https://www.indeed.com/jobs?q=\x7boperator\x7d%20\x7bcity\x7d&l=\x7bcity\x7d%2C%20\x7bstate\x7d" : String).data false [] =
      [Seg.lit "https://www.indeed.com/jobs?q=", Seg.field "operator", Seg.lit "%20",
       Seg.field "city", Seg.lit "&l=", Seg.field "city", Seg.lit "%2C%20",
       Seg.field "state"] := by decide
  have h3 : parseFmt ("https://www.glassdoor.com/Job/jobs.htm?sc.keyword=\x7boperator\x7d%20\x7bcity\x7d&locT=C&locId=\x7bcity\x7d" : String).data false [] =
      [Seg.lit "https://www.glassdoor.com/Job/jobs.htm?sc.keyword=", Seg.field "operator",
       Seg.lit "%20", Seg.field "city", Seg.lit "&locT=C&locId=", Seg.field "city"] := by decide
  constructor
  · simp only [get_aggregator_urls, AGGREGATOR_PATTERNS, List.map_cons, List.map_nil,
      pyFormat, h1, h2, h3, renderFmt]
    simp
  · simp [get_aggregator_urls, AGGREGATOR_PATTERNS]
